import Mathlib

/-!
Shallow embedding of the symptom-extraction / severity-scoring / guidance
engine of the sahaaya repository, together with proofs of the specification
claims about it.

Translated sources:
  * src/app/nlp.py            (knowledge base, language detection, symptom
                               extraction, severity aggregation, guidance
                               composition, guidance entry point)
  * src/app/db.py             (local-resource ranking and emergency-contact
                               query; the SQL is modelled as list operations
                               over the table rows)
  * src/app/emergency.py      (immediate response protocols)

Modelling conventions:
  * Python strings are Lean `String`s; `str.lower()` is modelled by
    `asciiLower` (ASCII-only lowering; the Indic-script strings of this code
    base have no case, so Python lowering is the identity on them).
  * Python `needle in hay` (substring test) is `pyIn`.
  * Python dictionaries that are iterated in insertion order are association
    lists `List (String × α)`; `dict.get` is `pyGet`.
  * Python `list(set(xs))` in `extract_symptoms` is modelled as the
    duplicate-free list in knowledge-base iteration order (the loop appends
    each condition at most once, so the set only forgets order).
  * A possible Python `KeyError` is modelled by an `Option` result
    (`none` = the call raises); `get_health_guidance` propagates it.
-/

/-- Python `str.lower()` on one character, restricted to ASCII (sufficient and
exact for every string this code base manipulates apart from non-ASCII cased
letters, which do not occur in the knowledge base). -/
def asciiLowerChar (c : Char) : Char :=
  if 65 ≤ c.toNat ∧ c.toNat ≤ 90 then Char.ofNat (c.toNat + 32) else c

/-- Python `str.lower()`. -/
def asciiLower (s : String) : String :=
  String.mk (s.data.map asciiLowerChar)

/-- Is `needle` a contiguous substring of `hay`?  Models Python `in` on
strings (the empty needle matches everywhere, as in Python). -/
def hasSubstr (needle : List Char) : List Char → Bool
  | [] => needle.isEmpty
  | c :: t => needle.isPrefixOf (c :: t) || hasSubstr needle t

/-- Python `needle in hay` for strings. -/
def pyIn (needle hay : String) : Bool :=
  hasSubstr needle.data hay.data

/-- Python `dict.get(key)` over an insertion-ordered association list. -/
def pyGet {α : Type} : List (String × α) → String → Option α
  | [], _ => none
  | (k, v) :: t, key => if k == key then some v else pyGet t key

/-- One entry of `MEDICAL_KNOWLEDGE_BASE` (src/app/nlp.py lines 7-159). -/
structure ConditionData where
  keywords : List String
  advice : String
  severity : String
  urgency : String
deriving Repr, DecidableEq

/-- src/app/nlp.py lines 7-159: the static knowledge base, in dictionary
insertion order. -/
def MEDICAL_KNOWLEDGE_BASE : List (String × ConditionData) :=
  [ ("fever",
     { keywords :=
        ["fever", "temperature", "hot", "burning", "chills", "shivering", "feverish", "high temp",
         "बुखार", "तापमान", "गर्मी", "ठंड लगना", "कंपकंपी",
         "జ్వరం", "వేడిమి", "చలిమి", "వణుకు",
         "காய்ச்சல்", "சூடு", "குளிர்",
         "জ্বর", "গরম", "কাঁপুনি"],
       advice := "Monitor your temperature. Rest, drink fluids, take paracetamol if needed. See a doctor if fever exceeds 102°F (39°C) or persists beyond 3 days.",
       severity := "medium",
       urgency := "monitor" }),
    ("cough",
     { keywords :=
        ["cough", "coughing", "throat", "phlegm", "mucus", "chest congestion", "sore throat", "throat pain",
         "खांसी", "गला", "कफ", "गले में दर्द", "सांस की तकलीफ",
         "దగ్గు", "కఫం", "గొంతు", "గొంతునొప్పి",
         "இருமல்", "தொண்டை", "கபம்", "தொண்டை வலி",
         "কাশি", "গলা", "কফ", "গলা ব্যথা"],
       advice := "Stay hydrated, use honey for soothing, avoid cold drinks. See a doctor if cough persists beyond 2 weeks or if there\x27s blood.",
       severity := "low",
       urgency := "routine" }),
    ("headache",
     { keywords :=
        ["headache", "head pain", "migraine", "head hurts", "skull pain", "head ache", "brain pain",
         "सिरदर्द", "सिर में दर्द", "माथे में दर्द", "दिमाग में दर्द",
         "తలనొప్పి", "తల నొప్పి", "మెదడు నొప్పి",
         "தலைவலி", "தலை வலி", "மூளை வலி",
         "মাথাব্যথা", "মাথা ব্যথা", "মস্তিষ্ক ব্যথা"],
       advice := "Rest in a dark room, stay hydrated, avoid loud noises. Take mild painkillers if needed. Seek immediate help for sudden severe headaches.",
       severity := "medium",
       urgency := "monitor" }),
    ("stomach",
     { keywords :=
        ["stomach", "nausea", "vomiting", "diarrhea", "abdominal", "belly", "digestion", "stomach pain", "stomach ache", "tummy", "gut",
         "पेट", "पेट में दर्द", "उल्टी", "दस्त", "पेट की समस्या", "गैस", "एसिडिटी",
         "కడుపు", "కడుపు నొప్पి", "వాంతులు", "విరేచనలు", "జీర్ణకోశం",
         "வயிறு", "வயிற்று வலி", "வாந்தி", "வயிற்றுப்போக்கு",
         "পেট", "পেট ব্যথা", "বমি", "ডায়রিয়া", "হজমের সমস্যা"],
       advice := "Eat light foods, stay hydrated with ORS. Avoid dairy and spicy foods. See a doctor if symptoms persist beyond 48 hours.",
       severity := "medium",
       urgency := "monitor" }),
    ("emergency",
     { keywords :=
        ["chest pain", "difficulty breathing", "unconscious", "severe bleeding", "heart attack", "stroke", "can\x27t breathe", "severe pain", "emergency",
         "सीने में दर्द", "सांस लेने में तकलीफ", "बेहोश", "दिल का दौरा", "गंभीर दर्द", "आपातकाल",
         "ఛాతీ నొప్పి", "ఊపిరి ఆడక", "మూర్ఛ", "గుండె దబ్బ", "తీవ్ర నొప్పి",
         "மார்பு வலி", "மூச்சு திணறல்", "மூர்ச்சை", "மாரடைப்பு", "கடுமையான வலி",
         "বুকে ব্যথা", "শ্বাসকষ্ট", "অজ্ঞান", "হার্ট অ্যাটাক", "তীব্র ব্যথা"],
       advice := "⚠️ EMERGENCY: Seek immediate medical attention. Call emergency services or go to the nearest hospital immediately.",
       severity := "high",
       urgency := "emergency" }),
    ("wellness",
     { keywords :=
        ["tired", "fatigue", "weakness", "energy", "sleep", "stress", "exhausted", "weak", "sleepy",
         "थकान", "कमजोरी", "नींद", "तनाव", "थका हुआ",
         "అలసట", "బలహీనత", "నిద్రలేమి", "ఒత్తిడి", "అలిసిపోవు",
         "களைப்பு", "பலவীனம்", "தூக்கமின்மை", "மன அழுத்தம்",
         "ক্লান্তি", "দুর্বলতা", "ঘুমের সমস্যা", "চাপ", "অবসাদ"],
       advice := "Ensure adequate sleep (7-8 hours), maintain regular exercise, eat balanced meals. Consider stress management techniques.",
       severity := "low",
       urgency := "routine" }),
    ("body_pain",
     { keywords :=
        ["body pain", "joint pain", "muscle pain", "back pain", "neck pain", "shoulder pain", "leg pain", "arm pain", "aches", "sore",
         "शरीर में दर्द", "जोड़ों में दर्द", "मांसपेशियों में दर्द", "पीठ में दर्द", "गर्दन में दर्द",
         "శరీర నొప్పి", "కీళ్ళ నొప్పి", "వీపు నొప్పి", "మెడ నొప్పి",
         "உடல் வலி", "மூட்டு வலி", "தசை வலி", "முதுகு வலி",
         "শরীর ব্যথা", "গাঁট ব্যথা", "পেশী ব্যথা", "পিঠ ব্যথা"],
       advice := "Apply warm compress, gentle stretching, rest the affected area. Take mild painkillers if needed. See a doctor if pain is severe or persistent.",
       severity := "medium",
       urgency := "routine" }),
    ("skin",
     { keywords :=
        ["rash", "itching", "skin", "allergy", "red spots", "swelling", "inflammation", "eczema", "burn",
         "खुजली", "चकत्ते", "त्वचा", "एलर्जी", "लाल दाग", "सूजन",
         "దురద", "చర్మం", "అలెర్జీ", "ఎర్రటి మచ్చలు", "వాపు",
         "அரிப்பு", "தோல்", "ஒவ்வாமை", "சிவப்பு புள்ளிகள்", "வீக்கம்",
         "চুলকানি", "চর্মরোগ", "অ্যালার্জি", "লাল দাগ", "ফোলা"],
       advice := "Keep the area clean and dry, avoid scratching, use mild soap. Apply cold compress for itching. See a doctor if symptoms worsen or persist.",
       severity := "low",
       urgency := "routine" }) ]

/-- Does some character of the text have a code point in the Devanagari range
(src/app/nlp.py line 227)? -/
def hasDevanagari (text : String) : Bool :=
  text.data.any fun c => decide (0x0900 ≤ c.toNat) && decide (c.toNat ≤ 0x097F)

/-- Does some character have a code point in the Telugu range
(src/app/nlp.py line 231)? -/
def hasTelugu (text : String) : Bool :=
  text.data.any fun c => decide (0x0C00 ≤ c.toNat) && decide (c.toNat ≤ 0x0C7F)

/-- Does some character have a code point in the Tamil range
(src/app/nlp.py line 235)? -/
def hasTamil (text : String) : Bool :=
  text.data.any fun c => decide (0x0B80 ≤ c.toNat) && decide (c.toNat ≤ 0x0BFF)

/-- Does some character have a code point in the Bengali range
(src/app/nlp.py line 239)? -/
def hasBengali (text : String) : Bool :=
  text.data.any fun c => decide (0x0980 ≤ c.toNat) && decide (c.toNat ≤ 0x09FF)

/-- src/app/nlp.py lines 224-243: script-range based language detection
(duplicated verbatim at src/app/services/medical_knowledge.py lines 449-468). -/
def detect_language (text : String) : String :=
  if hasDevanagari text then "hi"
  else if hasTelugu text then "te"
  else if hasTamil text then "ta"
  else if hasBengali text then "bn"
  else "en"

/-- src/app/nlp.py lines 257-268: for every condition, mark it detected as
soon as one of its keywords occurs as a substring of the lower-cased text.
The inner loop's first-hit break is `List.any`; `list(set(...))` keeps the
insertion-ordered duplicate-free list (see the module comment). -/
def extract_symptoms (text : String) : List String :=
  let text_lower := asciiLower text
  MEDICAL_KNOWLEDGE_BASE.filterMap fun cd =>
    if cd.2.keywords.any (fun k => pyIn k text_lower) then some cd.1 else none

/-- src/app/nlp.py line 272: `severity_levels = {"low": 1, "medium": 2, "high": 3}`;
a missing key is Python `KeyError`, hence `Option`. -/
def severity_levels : String → Option Nat := pyGet [("low", 1), ("medium", 2), ("high", 3)]

/-- src/app/nlp.py line 273: `urgency_levels = {"routine": 1, "monitor": 2, "emergency": 3}`. -/
def urgency_levels : String → Option Nat := pyGet [("routine", 1), ("monitor", 2), ("emergency", 3)]

/-- One iteration of the loop of `get_severity_level`
(src/app/nlp.py lines 278-286), over the running `(max_severity, max_urgency)`
state; `none` records a raised `KeyError`. -/
def severityStep (acc : Option (String × String)) (symptom : String) : Option (String × String) :=
  match acc with
  | none => none
  | some (ms, mu) =>
    match pyGet MEDICAL_KNOWLEDGE_BASE symptom with
    | none => some (ms, mu)
    | some d =>
      match severity_levels d.severity, severity_levels ms,
            urgency_levels d.urgency, urgency_levels mu with
      | some sv, some msv, some uv, some muv =>
        some ((if msv < sv then d.severity else ms), (if muv < uv then d.urgency else mu))
      | _, _, _, _ => none

/-- src/app/nlp.py lines 270-288: `get_severity_level` (duplicated verbatim at
src/app/services/medical_knowledge.py lines 483-501). The result is `none`
exactly when the Python code would raise `KeyError`. -/
def get_severity_level (symptoms : List String) : Option (String × String) :=
  symptoms.foldl severityStep (some ("low", "routine"))

/-- src/app/nlp.py lines 162-222: `LANGUAGE_RESPONSES`, the per-language
response templates, in dictionary insertion order. -/
def LANGUAGE_RESPONSES : List (String × List (String × String)) :=
  [ ("te",
     [ ("emergency", "⚠️ అత్యవసరం: వెంటనే వైద్య సహాయం పొందండి. 108 కు కాల్ చేయండి లేదా సమీపంలోని ఆసుపత్రికి వెళ్లండి."),
       ("fever", "మీ ఉష్ణోగ్రతను పర్యవేక్షించండి. విశ్రాంతి తీసుకోండి, ద్రవాలు తాగండి, అవసరమైతే పారాసిటమాల్ తీసుకోండి. జ్వరం 102°F (39°C) మించినా లేదా 3 రోజులకు మించి ఉంటే వైద్యుడిని చూడండి."),
       ("headache", "చీకటి గదిలో విశ్రాంతి తీసుకోండి, నీరు తాగండి, బిగ్గరగా శబ్దాలను నివారించండి. అవసరమైతే తేలికపాటి నొప్పి మందులు తీసుకోండి. అకస్మాత్తుగా తీవ్రమైన తలనొప్పికి వెంటనే సహాయం పొందండి."),
       ("cough", "హైడ్రేట్ అయి ఉండండి, గొంతు మృదువుగా ఉండేందుకు తేనె వాడండి, చల్లని పానీయాలను నివారించండి. దగ్గు 2 వారాలకు మించి కొనసాగితే లేదా రక్తం వస్తుంటే వైద్యుడిని చూడండి."),
       ("stomach", "తేలికపాటి ఆహారం తీసుకోండి, ORS తో హైడ్రేట్ అయి ఉండండి. పాల ఉత్పాదాలు మరియు మసాలా ఆహారాన్ని నివారించండి. లక్షణాలు 48 గంటలకు మించి ఉంటే వైద్యుడిని చూడండి."),
       ("body_pain", "వెచ్చని కంప్రెస్ వేయండి, మెల్లిగా స్ట్రెచ్ చేయండి, ప్రభావిత ప్రాంతానికి విశ్రాంతి ఇవ్వండి. అవసరమైతే తేలికపాటి నొప్పి మందులు తీసుకోండి."),
       ("skin", "ప్రాంతాన్ని శుభ్రంగా మరియు పొడిగా ఉంచండి, గోక్కోవడం నివారించండి, తేలికపాటి సబ్బును వాడండి. దురదకు చల్లని కంప్రెస్ వేయండి."),
       ("wellness", "తగినంత నిద్ర తీసుకోండి (7-8 గంటలు), క్రమ వ్యాయామం చేయండి, సమతుల్య ఆహారం తీసుకోండి. ఒత్తిడి నిర్వహణ పద్ధతులను పరిగణించండి."),
       ("see_doctor", "వైద్యుడిని సంప్రదించండి।"),
       ("rest_advice", "విశ్రాంతి తీసుకోండి మరియు నీరు తాగండి।"),
       ("disclaimer", "💡 ఇది సాధారణ మార్గదర్శకత్వం మాత్రమే. సరైన నిర్ధారణ మరియు చికిత్స కోసం ఎల్లప్పుడూ ఆరోగ్య నిపుణులను సంప్రదించండి।") ]),
    ("hi",
     [ ("emergency", "⚠️ आपातकाल: तुरंत चिकित्सा सहायता लें। 108 पर कॉल करें या निकटतम अस्पताल जाएं।"),
       ("fever", "अपना तापमान मॉनिटर करें। आराम करें, तरल पदार्थ पिएं, जरूरत पड़ने पर पैरासिटामोल लें। यदि बुखार 102°F (39°C) से अधिक हो या 3 दिन से अधिक रहे तो डॉक्टर को दिखाएं।"),
       ("headache", "अंधेरे कमरे में आराम करें, पानी पिएं, तेज आवाज से बचें। जरूरत पड़ने पर हल्की दर्द निवारक दवा लें। अचानक तेज सिरदर्द के लिए तुरंत मदद लें।"),
       ("cough", "हाइड्रेटेड रहें, गले को आराम देने के लिए शहद का उपयोग करें, ठंडे पेय से बचें। खांसी 2 सप्ताह से अधिक रहे या खून आए तो डॉक्टर को दिखाएं।"),
       ("stomach", "हल्का खाना खाएं, ORS से हाइड्रेटेड रहें। डेयरी और मसालेदार भोजन से बचें। लक्षण 48 घंटे से अधिक रहें तो डॉक्टर को दिखाएं।"),
       ("body_pain", "गर्म सिकाई करें, धीरे से स्ट्रेचिंग करें, प्रभावित क्षेत्र को आराम दें। जरूरत पड़ने पर हल्की दर्द निवारक दवा लें।"),
       ("skin", "क्षेत्र को साफ और सूखा रखें, खुजली न करें, हल्का साबुन उपयोग करें। खुजली के लिए ठंडी सिकाई करें।"),
       ("wellness", "पर्याप्त नींद लें (7-8 घंटे), नियमित व्यायाम करें, संतुलित आहार लें। तनाव प्रबंधन तकनीकों पर विचार करें।"),
       ("see_doctor", "डॉक्टर से सलाह लें।"),
       ("rest_advice", "आराम करें और पानी पिएं।"),
       ("disclaimer", "💡 यह केवल सामान्य मार्गदर्शन है। उचित निदान और उपचार के लिए हमेशा स्वास्थ्य पेशेवरों से सलाह लें।") ]),
    ("ta",
     [ ("emergency", "⚠️ அவசரம்: உடனடியாக மருத்துவ உதவி பெறுங்கள். 108 க்கு அழைக்கவும் அல்லது அருகிலுள்ள மருத்துவமனைக்குச் செல்லவும்।"),
       ("fever", "உங்கள் வெப்பநிலையை கண்காணிக்கவும். ஓய்வு எடுங்கள், திரவங்களை அருந்துங்கள், தேவைப்பட்டால் பாராசிட்டமால் எடுங்கள்।"),
       ("headache", "இருண்ட அறையில் ஓய்வு எடுங்கள், தண்ணீர் அருந்துங்கள், சத்தம் தவிர்க்கவும்।"),
       ("cough", "நீரேற்றமாக இருங்கள், தொண்டைக்கு தேன் பயன்படுத்துங்கள், குளிர் பானங்களை தவிர்க்கவும்।"),
       ("stomach", "இலகுவான உணவு சாப்பிடுங்கள், ORS உடன் நீரேற்றமாக இருங்கள்।"),
       ("body_pain", "சூடான ஒத்தடம் கொடுங்கள், மெதுவாக நீட்டுங்கள், பாதிக்கப்பட்ட பகுதிக்கு ஓய்வு கொடுங்கள்।"),
       ("skin", "பகுதியை சுத்தமாகவும் உலர்ந்ததாகவும் வைத்துக் கொள்ளுங்கள், அரிப்பை தவிர்க்கவும்।"),
       ("wellness", "போதுமான தூக்கம் எடுங்கள் (7-8 மணி நேரம்), வழக்கமான உடற்பயிற்சி செய்யுங்கள்।"),
       ("disclaimer", "💡 இது பொதுவான வழிகாட்டுதல் மட்டுமே। சரியான நோய் கண்டறிதல் மற்றும் சிகிச்சைக்கு எப்போதும் சுகாதார நிபுணர்களை அணுகவும்।") ]),
    ("bn",
     [ ("emergency", "⚠️ জরুরি: অবিলম্বে চিকিৎসা সহায়তা নিন। ১০৮ এ কল করুন বা নিকটস্থ হাসপাতালে যান।"),
       ("fever", "আপনার তাপমাত্রা পর্যবেক্ষণ করুন। বিশ্রাম নিন, তরল পান করুন, প্রয়োজনে প্যারাসিটামল নিন।"),
       ("headache", "অন্ধকার ঘরে বিশ্রাম নিন, পানি পান করুন, উচ্চ শব্দ এড়িয়ে চলুন।"),
       ("cough", "হাইড্রেটেড থাকুন, গলা প্রশমিত করতে মধু ব্যবহার করুন, ঠান্ডা পানীয় এড়িয়ে চলুন।"),
       ("stomach", "হালকা খাবার খান, ORS দিয়ে হাইড্রেটেড থাকুন।"),
       ("body_pain", "গরম সেঁক দিন, আলতো করে স্ট্রেচিং করুন, আক্রান্ত অংশে বিশ্রাম দিন।"),
       ("skin", "এলাকাটি পরিষ্কার ও শুকনো রাখুন, চুলকানো এড়িয়ে চলুন।"),
       ("wellness", "পর্যাপ্ত ঘুম নিন (৭-৮ ঘন্টা), নিয়মিত ব্যায়াম করুন।"),
       ("disclaimer", "💡 এটি শুধুমাত্র সাধারণ নির্দেশনা। সঠিক নির্ণয় ও চিকিৎসার জন্য সবসময় স্বাস্থ্য পেশাদারদের পরামর্শ নিন।") ]),
    ("en",
     [ ("emergency", "⚠️ EMERGENCY: Seek immediate medical attention. Call 108 or go to the nearest hospital."),
       ("fever", "Monitor your temperature. Rest, drink fluids, take paracetamol if needed. See a doctor if fever exceeds 102°F (39°C) or persists beyond 3 days."),
       ("headache", "Rest in a dark room, stay hydrated, avoid loud noises. Take mild painkillers if needed. Seek immediate help for sudden severe headaches."),
       ("cough", "Stay hydrated, use honey for soothing, avoid cold drinks. See a doctor if cough persists beyond 2 weeks or if there\x27s blood."),
       ("stomach", "Eat light foods, stay hydrated with ORS. Avoid dairy and spicy foods. See a doctor if symptoms persist beyond 48 hours."),
       ("body_pain", "Apply warm compress, gentle stretching, rest the affected area. Take mild painkillers if needed."),
       ("skin", "Keep the area clean and dry, avoid scratching, use mild soap. Apply cold compress for itching."),
       ("wellness", "Ensure adequate sleep (7-8 hours), maintain regular exercise, eat balanced meals. Consider stress management techniques."),
       ("disclaimer", "💡 This is general guidance only. Always consult healthcare professionals for proper diagnosis and treatment.") ]) ]

/-- Python `LANGUAGE_RESPONSES.get(language, {}).get(key)`. -/
def langGet (language key : String) : Option String :=
  pyGet ((pyGet LANGUAGE_RESPONSES language).getD []) key

/-- The default disclaimer literal that src/app/nlp.py lines 320-321 and
347-348 pass to `dict.get`. -/
def defaultDisclaimer : String :=
  "💡 This is general guidance only. Always consult healthcare professionals for proper diagnosis and treatment."

/-- The localized disclaimer used by `generate_personalized_advice`
(src/app/nlp.py lines 320-321 and 347-348). -/
def disclaimerFor (language : String) : String :=
  (langGet language "disclaimer").getD defaultDisclaimer

/-- src/app/nlp.py lines 290-315: the three-tier severity-banded message
table of `get_severity_message`. -/
def severityMessages : List (String × List (String × String)) :=
  [ ("high",
     [ ("hi", "⚠️ यह चिंताजनक लगता है। कृपया तुरंत डॉक्टर को दिखाएं।"),
       ("te", "⚠️ ఇది ఆందోళనకరంగా అనిపిస్తోంది. దయచేసి వెంటనే వైద్యుడిని చూడండి।"),
       ("ta", "⚠️ இது கவலையளிக்கிறது. தயவுசெய்து உடனடியாக மருத்துவரைப் பார்க்கவும்।"),
       ("bn", "⚠️ এটি উদ্বেগজনক মনে হচ্ছে। অনুগ্রহ করে অবিলম্বে ডাক্তার দেখান।"),
       ("en", "⚠️ This seems concerning. Please see a doctor immediately.") ]),
    ("medium",
     [ ("hi", "अपने लक्षणों की बारीकी से निगरानी करें। यदि वे बिगड़ें या बने रहें तो डॉक्टर को दिखाएं।"),
       ("te", "మీ లక్షణాలను దగ్గరగా పర్యవేక్షించండి. అవి దిగజారితే లేదా కొనసాగితే వైద్యుడిని చూడండి।"),
       ("ta", "உங்கள் அறிகுறிகளை உன்னிப்பாகக் கண்காணிக்கவும். அவை மோசமாகினால் மருத்துவரைப் பார்க்கவும்।"),
       ("bn", "আপনার উপসর্গগুলি নিবিড়ভাবে পর্যবেক্ষণ করুন। তারা খারাপ হলে ডাক্তার দেখান।"),
       ("en", "Monitor your symptoms closely. See a doctor if they worsen or persist.") ]),
    ("low",
     [ ("hi", "ये आम तौर पर हल्के लक्षण हैं। देखभाल करें और आराम करें।"),
       ("te", "ఇవి సాధారణంగా తేలికపాటి లక్షణాలు. జాగ్రత్తగా ఉండండి మరియు విశ్రాంతి తీసుకోండి।"),
       ("ta", "இவை பொதுவாக லேசான அறிகுறிகள். கவனமாக இருங்கள் மற்றும் ஓய்வு எடுங்கள்।"),
       ("bn", "এগুলি সাধারণত হালকা উপসর্গ। যত্ন নিন এবং বিশ্রাম নিন।"),
       ("en", "These are generally mild symptoms. Take care and rest.") ]) ]

/-- src/app/nlp.py lines 290-315: `get_severity_message`, with its double
fallback `messages.get(severity, \x7b\x7d).get(language, messages.get(severity, \x7b\x7d).get("en", ""))`. -/
def get_severity_message (severity language : String) : String :=
  let tier := (pyGet severityMessages severity).getD []
  (pyGet tier language).getD ((pyGet tier "en").getD "")

/-- The per-symptom advice selection of src/app/nlp.py lines 332-339: the
language-specific template when present and non-empty (Python truthiness),
else the English advice from the knowledge base; symptoms missing from the
knowledge base contribute nothing. -/
def symptomAdvice (language symptom : String) : Option String :=
  match pyGet MEDICAL_KNOWLEDGE_BASE symptom with
  | none => none
  | some d =>
    match langGet language symptom with
    | some a => some (if a == "" then d.advice else a)
    | none => some d.advice

/-- src/app/nlp.py lines 317-351: `generate_personalized_advice`. -/
def generate_personalized_advice (symptoms : List String) (severity urgency language : String) : String :=
  if symptoms.isEmpty then
    "I couldn\x27t identify specific symptoms. Please describe your health concern in more detail. "
      ++ disclaimerFor language
  else if urgency == "emergency" then
    (langGet language "emergency").getD
      "⚠️ EMERGENCY: Seek immediate medical attention. Call emergency services or go to the nearest hospital immediately."
  else
    let advice_parts :=
      symptoms.filterMap (symptomAdvice language)
        ++ (let m := get_severity_message severity language; if m == "" then [] else [m])
        ++ [disclaimerFor language]
    String.intercalate " " advice_parts

/-- src/app/nlp.py lines 245-255 and 353-368: the AI branch is disabled
(`use_advanced_ai = False`), so `get_ai_enhanced_response` always returns
the empty string. -/
def get_ai_enhanced_response (_user_text : String) (_detected_symptoms : List String) : String :=
  ""

/-- The dictionary returned by `get_health_guidance`
(src/app/nlp.py lines 405-413). -/
structure HealthGuidance where
  guidance : String
  detected_symptoms : List String
  severity : String
  urgency : String
  language : String
  confidence : String
  disclaimer : String
deriving Repr, DecidableEq

/-- src/app/nlp.py lines 370-413: `get_health_guidance`, the guidance entry
point. `none` records a Python exception (only possible through
`get_severity_level`); everything else is total. -/
def get_health_guidance (user_text : String) (language : String) : Option HealthGuidance :=
  let language :=
    if language == "en" then
      let detected_lang := detect_language user_text
      if detected_lang != "en" then detected_lang else language
    else language
  let detected_symptoms := extract_symptoms user_text
  match get_severity_level detected_symptoms with
  | none => none
  | some (severity, urgency) =>
    let rule_based_advice := generate_personalized_advice detected_symptoms severity urgency language
    let ai_advice := get_ai_enhanced_response user_text detected_symptoms
    let final_advice :=
      if ai_advice != "" && 20 < ai_advice.trim.length then
        ai_advice ++ "\n\n" ++ "💡 Always consult healthcare professionals for proper diagnosis."
      else rule_based_advice
    some
      { guidance := final_advice,
        detected_symptoms := detected_symptoms,
        severity := severity,
        urgency := urgency,
        language := language,
        confidence := if detected_symptoms.isEmpty then "low" else "high",
        disclaimer := "This is general guidance only, not a medical diagnosis." }

/-- One row of the `local_resources` table (src/app/db.py lines 78-94; the
seed rows at lines 336-376 use integral distances, so `distance_km` is an
integer here). -/
structure LocalResource where
  resource_type : String
  name : String
  location : String
  contact : String
  services : String
  emergency_available : Bool
  distance_km : Int
  availability : String
  region : String
deriving Repr, DecidableEq

/-- The `ORDER BY emergency_available DESC, distance_km ASC` key of
src/app/db.py lines 592-597: emergency-available rows first, then nearer
rows first. -/
def resourceOrder (a b : LocalResource) : Bool :=
  if a.emergency_available == b.emergency_available then
    decide (a.distance_km ≤ b.distance_km)
  else a.emergency_available

/-- Insertion into a list sorted by the boolean total preorder `le`. -/
def insertByKey {α : Type} (le : α → α → Bool) (x : α) : List α → List α
  | [] => [x]
  | y :: t => if le x y then x :: y :: t else y :: insertByKey le x t

/-- Insertion sort by the boolean total preorder `le`, modelling an SQL
`ORDER BY`. -/
def sortByKey {α : Type} (le : α → α → Bool) (l : List α) : List α :=
  l.foldr (insertByKey le) []

/-- src/app/db.py lines 590-613: `_get_local_resources` — all rows ordered by
`emergency_available DESC, distance_km ASC`, truncated to 5 (`LIMIT 5`).  The
final projection of each row to a result dictionary renames fields one-to-one
and is not modelled; the claims concern the selection and the order. -/
def get_local_resources (table : List LocalResource) : List LocalResource :=
  (sortByKey resourceOrder table).take 5

/-- The `ORDER BY resource_type` key of src/app/db.py lines 662-667. -/
def typeOrder (a b : LocalResource) : Bool :=
  !(decide (b.resource_type < a.resource_type))

/-- The rows selected by `get_emergency_contacts` (src/app/db.py lines
656-680): `WHERE emergency_available = 1 AND (region = ? OR region = 'all')
ORDER BY resource_type`. -/
def emergencyContactRows (region : String) (table : List LocalResource) : List LocalResource :=
  sortByKey typeOrder
    (table.filter fun r => r.emergency_available && (r.region == region || r.region == "all"))

/-- One contact dictionary returned by `get_emergency_contacts`
(src/app/db.py lines 669-678). -/
structure EmergencyContact where
  name : String
  contact : String
  services : String
  availability : String
deriving Repr, DecidableEq

/-- src/app/db.py lines 656-680: `get_emergency_contacts`. -/
def get_emergency_contacts (region : String) (table : List LocalResource) : List EmergencyContact :=
  (emergencyContactRows region table).map fun r =>
    { name := r.name, contact := r.contact, services := r.services, availability := r.availability }

/-- The first seed row inserted into `local_resources`
(src/app/db.py lines 337-349). -/
def emergencyServicesRow : LocalResource :=
  { resource_type := "emergency", name := "Emergency Services", location := "Nationwide",
    contact := "108",
    services := "[\"emergency medical care\", \"ambulance\", \"24/7 response\"]",
    emergency_available := true, distance_km := 0,
    availability := "24/7", region := "all" }

/-- The three seed rows inserted into `local_resources`
(src/app/db.py lines 336-376); `services` keeps the JSON text. -/
def seedLocalResources : List LocalResource :=
  [ emergencyServicesRow,
    { resource_type := "hospital", name := "District Government Hospital",
      location := "District Headquarters", contact := "102",
      services := "[\"general medicine\", \"emergency care\", \"surgery\", \"maternity\"]",
      emergency_available := true, distance_km := 25,
      availability := "24/7 emergency, business hours for routine", region := "rural" },
    { resource_type := "pharmacy", name := "Local Pharmacy/Medical Store",
      location := "Village/Town Center", contact := "Local number varies",
      services := "[\"basic medications\", \"first aid supplies\", \"health advice\"]",
      emergency_available := false, distance_km := 5,
      availability := "Business hours", region := "rural" } ]

/-- One immediate-response protocol record of src/app/emergency.py lines
168-255; `do_not_do` is optional because the respiratory, unconscious and
bleeding records omit that key. -/
structure ResponseProtocol where
  immediate_action : String
  steps : List String
  warning_signs : List String
  do_not_do : Option (List String)
deriving Repr, DecidableEq

/-- src/app/emergency.py lines 168-255: the stored protocols,
keyed by emergency type and then by language. -/
def RESPONSE_PROTOCOLS : List (String × List (String × ResponseProtocol)) :=
  [ ("cardiac",
     [ ("en",
        { immediate_action := "Call 108 immediately. Keep person sitting upright.",
          steps :=
            ["Call emergency services (108/102)",
             "Give aspirin if person conscious and not allergic",
             "Keep person calm and sitting upright",
             "Loosen tight clothing around neck and chest",
             "Monitor breathing and pulse",
             "Be ready to perform CPR if needed",
             "Do not leave person alone"],
          warning_signs :=
            ["Severe chest pain or pressure",
             "Pain spreading to arm, jaw, or back",
             "Shortness of breath",
             "Sweating",
             "Nausea or vomiting"],
          do_not_do := some
            ["Give water if unconscious",
             "Give medication except aspirin",
             "Let person walk or exert themselves"] }) ]),
    ("respiratory",
     [ ("en",
        { immediate_action := "If choking, perform Heimlich maneuver. If breathing difficulty, call 108.",
          steps :=
            ["Check if airway is blocked",
             "If choking: perform back blows and abdominal thrusts",
             "If asthma: help use rescue inhaler",
             "Keep person in upright position",
             "Loosen tight clothing",
             "Call 108 if breathing does not improve",
             "Monitor consciousness level"],
          warning_signs :=
            ["Blue lips or fingernails",
             "Inability to speak",
             "Weak or absent breathing",
             "Loss of consciousness"],
          do_not_do := none }) ]),
    ("unconscious",
     [ ("en",
        { immediate_action := "Check responsiveness. Call 108. Check breathing.",
          steps :=
            ["Check if person responds to voice or touch",
             "Call 108 immediately",
             "Check for breathing",
             "Place in recovery position if breathing",
             "Start CPR if not breathing",
             "Clear airway of obvious obstructions",
             "Monitor until help arrives"],
          warning_signs :=
            ["No response to stimuli",
             "Abnormal breathing",
             "No pulse",
             "Blue coloration"],
          do_not_do := none }) ]),
    ("bleeding",
     [ ("en",
        { immediate_action := "Apply direct pressure to wound. Elevate if possible.",
          steps :=
            ["Apply direct pressure with clean cloth",
             "Elevate injured area above heart if possible",
             "Do not remove object if embedded",
             "Apply additional bandages over soaked ones",
             "Check for signs of shock",
             "Call 108 for severe bleeding",
             "Keep person warm"],
          warning_signs :=
            ["Spurting blood",
             "Blood soaking through bandages",
             "Signs of shock (pale, weak pulse)",
             "Bleeding from multiple sites"],
          do_not_do := none }) ]) ]

/-- The generic fallback protocol of src/app/emergency.py lines 257-262. -/
def genericProtocol : ResponseProtocol :=
  { immediate_action := "Medical emergency detected. Call 108 immediately.",
    steps := ["Call emergency services", "Stay with the person", "Follow dispatcher instructions"],
    warning_signs := ["Worsening condition"],
    do_not_do := some ["Move person unnecessarily"] }

/-- src/app/emergency.py lines 163-262: `get_immediate_response_protocol`,
i.e. `protocols.get(emergency_type, \x7b\x7d).get(language, generic-fallback)`. -/
def get_immediate_response_protocol (emergency_type language : String) : ResponseProtocol :=
  (pyGet ((pyGet RESPONSE_PROTOCOLS emergency_type).getD []) language).getD genericProtocol

/-! ## General lemmas about the string and dictionary models -/

theorem isPrefixOf_self (l : List Char) : l.isPrefixOf l = true := by
  induction l with
  | nil => rfl
  | cons c t ih => simp [List.isPrefixOf, ih]

theorem hasSubstr_self (l : List Char) : hasSubstr l l = true := by
  cases l with
  | nil => rfl
  | cons c t => simp [hasSubstr, isPrefixOf_self]

theorem pyIn_self (s : String) : pyIn s s = true :=
  hasSubstr_self s.data

theorem pyGet_mem {α : Type} {m : List (String × α)} {key : String} {v : α}
    (h : pyGet m key = some v) : v ∈ m.map Prod.snd := by
  induction m with
  | nil => simp [pyGet] at h
  | cons p t ih =>
    obtain ⟨k, w⟩ := p
    by_cases hk : (k == key) = true
    · simp [pyGet, hk] at h
      simp [h]
    · simp [pyGet, hk] at h
      simpa using Or.inr (ih h)

theorem pyGet_mem_pair {α : Type} {m : List (String × α)} {key : String} {v : α}
    (h : pyGet m key = some v) : (key, v) ∈ m := by
  induction m with
  | nil => simp [pyGet] at h
  | cons p t ih =>
    obtain ⟨k, w⟩ := p
    by_cases hk : (k == key) = true
    · simp [pyGet, hk] at h
      have : k = key := by simpa using hk
      simp [this, h]
    · simp [pyGet, hk] at h
      simpa using Or.inr (ih h)

/-! ## Facts about the knowledge base, checked by evaluation -/

/-- Every keyword in the knowledge base is already lower-case, so Python
`text.lower()` leaves it unchanged. -/
theorem kb_keywords_lower_fixed :
    (MEDICAL_KNOWLEDGE_BASE.all fun cd => cd.2.keywords.all fun k => asciiLower k == k) = true := by
  decide

/-- No keyword in the knowledge base is the empty string. -/
theorem kb_keywords_nonempty :
    (MEDICAL_KNOWLEDGE_BASE.all fun cd => cd.2.keywords.all fun k => !k.isEmpty) = true := by
  decide

/-- Every condition's severity is one of low/medium/high and its urgency one
of routine/monitor/emergency, so `severity_levels` and `urgency_levels` are
defined on them. -/
theorem kb_data_ok :
    (MEDICAL_KNOWLEDGE_BASE.all fun cd =>
      ((cd.2.severity == "low" || cd.2.severity == "medium" || cd.2.severity == "high")
        && (cd.2.urgency == "routine" || cd.2.urgency == "monitor" || cd.2.urgency == "emergency"))) = true := by
  decide

/-! ## Symptom extraction lemmas -/

/-- A condition one of whose keywords occurs in the lower-cased text is
always reported by `extract_symptoms`. -/
theorem mem_extract_of_keyword {c : String} {d : ConditionData} {k text : String}
    (hmem : (c, d) ∈ MEDICAL_KNOWLEDGE_BASE) (hk : k ∈ d.keywords)
    (hin : pyIn k (asciiLower text) = true) : c ∈ extract_symptoms text := by
  unfold extract_symptoms
  refine List.mem_filterMap.mpr ⟨(c, d), hmem, ?_⟩
  have hany : (d.keywords.any fun kw => pyIn kw (asciiLower text)) = true :=
    List.any_eq_true.mpr ⟨k, hk, hin⟩
  simp [hany]

/-- Every reported symptom is a condition of the knowledge base for which a
keyword occurs in the lower-cased text. -/
theorem extract_mem_spec {c text : String} (h : c ∈ extract_symptoms text) :
    ∃ d, (c, d) ∈ MEDICAL_KNOWLEDGE_BASE
      ∧ ∃ k ∈ d.keywords, pyIn k (asciiLower text) = true := by
  unfold extract_symptoms at h
  obtain ⟨⟨cname, d⟩, hmem, hf⟩ := List.mem_filterMap.mp h
  by_cases hany : (d.keywords.any fun kw => pyIn kw (asciiLower text)) = true
  · obtain ⟨k, hk, hkin⟩ := List.any_eq_true.mp hany
    simp [hany] at hf
    exact ⟨d, hf ▸ hmem, k, hk, hkin⟩
  · simp [hany] at hf

/-! ## Severity aggregation lemmas -/

/-- The values `max_severity` may take during the loop of
`get_severity_level`. -/
def SevNames : List String := ["low", "medium", "high"]

/-- The values `max_urgency` may take during the loop. -/
def UrgNames : List String := ["routine", "monitor", "emergency"]

/-- Invariant of the running `(max_severity, max_urgency)` state: no
`KeyError` has been raised and both components are known level names. -/
def SevGood (st : Option (String × String)) : Prop :=
  ∃ ms mu, st = some (ms, mu) ∧ ms ∈ SevNames ∧ mu ∈ UrgNames

theorem kb_levels_mem {d : ConditionData} (h : d ∈ MEDICAL_KNOWLEDGE_BASE.map Prod.snd) :
    d.severity ∈ SevNames ∧ d.urgency ∈ UrgNames := by
  obtain ⟨cd, hcd, rfl⟩ := List.mem_map.mp h
  have hall := List.all_eq_true.mp kb_data_ok cd hcd
  simp only [Bool.and_eq_true, Bool.or_eq_true, beq_iff_eq] at hall
  constructor
  · rcases hall.1 with (h | h) | h <;> simp [SevNames, h]
  · rcases hall.2 with (h | h) | h <;> simp [UrgNames, h]

theorem sev_rank_of_mem {s : String} (h : s ∈ SevNames) :
    ∃ v, severity_levels s = some v ∧ v ≤ 3 ∧ (v = 3 → s = "high") := by
  simp only [SevNames, List.mem_cons, List.not_mem_nil, or_false] at h
  rcases h with rfl | rfl | rfl
  · exact ⟨1, rfl, by decide, by decide⟩
  · exact ⟨2, rfl, by decide, by decide⟩
  · exact ⟨3, rfl, by decide, fun _ => rfl⟩

theorem urg_rank_of_mem {s : String} (h : s ∈ UrgNames) :
    ∃ v, urgency_levels s = some v ∧ v ≤ 3 ∧ (v = 3 → s = "emergency") := by
  simp only [UrgNames, List.mem_cons, List.not_mem_nil, or_false] at h
  rcases h with rfl | rfl | rfl
  · exact ⟨1, rfl, by decide, by decide⟩
  · exact ⟨2, rfl, by decide, by decide⟩
  · exact ⟨3, rfl, by decide, fun _ => rfl⟩

/-- One loop iteration preserves the invariant (in particular it never
raises `KeyError`). -/
theorem severityStep_good {st : Option (String × String)} (h : SevGood st) (s : String) :
    SevGood (severityStep st s) := by
  obtain ⟨ms, mu, rfl, hms, hmu⟩ := h
  cases hget : pyGet MEDICAL_KNOWLEDGE_BASE s with
  | none => exact ⟨ms, mu, by simp [severityStep, hget], hms, hmu⟩
  | some d =>
    obtain ⟨hdsev, hdurg⟩ := kb_levels_mem (pyGet_mem hget)
    obtain ⟨sv, hsv, _, _⟩ := sev_rank_of_mem hdsev
    obtain ⟨msv, hmsv, _, _⟩ := sev_rank_of_mem hms
    obtain ⟨uv, huv, _, _⟩ := urg_rank_of_mem hdurg
    obtain ⟨muv, hmuv, _, _⟩ := urg_rank_of_mem hmu
    have hstep : severityStep (some (ms, mu)) s =
        some ((if msv < sv then d.severity else ms), (if muv < uv then d.urgency else mu)) := by
      simp [severityStep, hget, hsv, hmsv, huv, hmuv]
    refine ⟨_, _, hstep, ?_, ?_⟩
    · by_cases hlt : msv < sv <;> simp [hlt, hdsev, hms]
    · by_cases hlt : muv < uv <;> simp [hlt, hdurg, hmu]

/-- Folding the loop over any symptom list preserves the invariant. -/
theorem sev_foldl_good (l : List String) {st : Option (String × String)} (h : SevGood st) :
    SevGood (l.foldl severityStep st) := by
  induction l generalizing st with
  | nil => exact h
  | cons a t ih => exact ih (severityStep_good h a)

/-- The `("high", "emergency")` state is absorbing: no further symptom can
change it. -/
theorem severityStep_absorb (s : String) :
    severityStep (some ("high", "emergency")) s = some ("high", "emergency") := by
  cases hget : pyGet MEDICAL_KNOWLEDGE_BASE s with
  | none => simp [severityStep, hget]
  | some d =>
    obtain ⟨hdsev, hdurg⟩ := kb_levels_mem (pyGet_mem hget)
    obtain ⟨sv, hsv, hsvle, _⟩ := sev_rank_of_mem hdsev
    obtain ⟨uv, huv, huvle, _⟩ := urg_rank_of_mem hdurg
    have e1 : severity_levels "high" = some 3 := rfl
    have e2 : urgency_levels "emergency" = some 3 := rfl
    have h1 : ¬ (3 < sv) := by omega
    have h2 : ¬ (3 < uv) := by omega
    simp [severityStep, hget, hsv, huv, e1, e2, h1, h2]

theorem sev_foldl_absorb (l : List String) :
    l.foldl severityStep (some ("high", "emergency")) = some ("high", "emergency") := by
  induction l with
  | nil => rfl
  | cons a t ih => simpa [severityStep_absorb] using ih

/-- Processing the `"emergency"` condition from any invariant state yields
exactly `("high", "emergency")` (its severity rank 3 and urgency rank 3
dominate every other level). -/
theorem severityStep_emergency {st : Option (String × String)} (h : SevGood st) :
    severityStep st "emergency" = some ("high", "emergency") := by
  obtain ⟨ms, mu, rfl, hms, hmu⟩ := h
  have hget : (pyGet MEDICAL_KNOWLEDGE_BASE "emergency").map
      (fun d => (d.severity, d.urgency)) = some ("high", "emergency") := by decide
  cases hd : pyGet MEDICAL_KNOWLEDGE_BASE "emergency" with
  | none => simp [hd] at hget
  | some d =>
    simp only [hd, Option.map_some] at hget
    have hdsev : d.severity = "high" := congrArg Prod.fst (Option.some.inj hget)
    have hdurg : d.urgency = "emergency" := congrArg Prod.snd (Option.some.inj hget)
    obtain ⟨msv, hmsv, hmsvle, hmsv3⟩ := sev_rank_of_mem hms
    obtain ⟨muv, hmuv, hmuvle, hmuv3⟩ := urg_rank_of_mem hmu
    have e1 : severity_levels "high" = some 3 := rfl
    have e2 : urgency_levels "emergency" = some 3 := rfl
    have hstep : severityStep (some (ms, mu)) "emergency" =
        some ((if msv < 3 then "high" else ms), (if muv < 3 then "emergency" else mu)) := by
      simp [severityStep, hd, hdsev, hdurg, hmsv, hmuv, e1, e2]
    rw [hstep]
    have hms2 : (if msv < 3 then "high" else ms) = "high" := by
      by_cases h1 : msv < 3
      · simp [h1]
      · simp [h1, hmsv3 (by omega)]
    have hmu2 : (if muv < 3 then "emergency" else mu) = "emergency" := by
      by_cases h2 : muv < 3
      · simp [h2]
      · simp [h2, hmuv3 (by omega)]
    rw [hms2, hmu2]

/-- As soon as `"emergency"` occurs among the symptoms, the aggregate is
exactly `("high", "emergency")`. -/
theorem sev_foldl_emergency (l : List String) {st : Option (String × String)}
    (h : SevGood st) (hmem : "emergency" ∈ l) :
    l.foldl severityStep st = some ("high", "emergency") := by
  induction l generalizing st with
  | nil => cases hmem
  | cons a t ih =>
    rcases List.mem_cons.mp hmem with heq | hmem2
    · subst heq
      rw [List.foldl_cons, severityStep_emergency h]
      exact sev_foldl_absorb t
    · exact ih (severityStep_good h a) hmem2

/-! ## Claim C10 -/

/-- C10: the severity aggregator is total on every list of symptom strings —
it never raises (the modelled `KeyError` case is unreachable) — and returns a
severity in \x7blow, medium, high\x7d and an urgency in
\x7broutine, monitor, emergency\x7d; in particular the returned severity is never
the string "emergency". -/
theorem C10_severity_aggregator_total (symptoms : List String) :
    ∃ s u, get_severity_level symptoms = some (s, u)
      ∧ s ∈ SevNames ∧ u ∈ UrgNames ∧ s ≠ "emergency" := by
  have hinit : SevGood (some ("low", "routine")) :=
    ⟨"low", "routine", rfl, by decide, by decide⟩
  obtain ⟨s, u, heq, hs, hu⟩ := sev_foldl_good symptoms hinit
  refine ⟨s, u, heq, hs, hu, ?_⟩
  simp only [SevNames, List.mem_cons, List.not_mem_nil, or_false] at hs
  rcases hs with rfl | rfl | rfl <;> decide

/-! ## Claim C1 -/

/-- C1 (counterexample): "chest pain" is a keyword of the emergency
condition, yet the severity assessment for a text containing it is
`("high", "emergency")` — the severity component is "high", not
"emergency" as the claim states. -/
theorem C1_counterexample :
    pyIn "chest pain" (asciiLower "chest pain") = true
      ∧ (pyGet MEDICAL_KNOWLEDGE_BASE "emergency").map
          (fun d => decide ("chest pain" ∈ d.keywords)) = some true
      ∧ get_severity_level (extract_symptoms "chest pain") = some ("high", "emergency")
      ∧ ("high" : String) ≠ "emergency" :=
  ⟨rfl, by decide, rfl, by decide⟩

/-- C1 (amended): if the text contains any keyword of the emergency
condition, the aggregate assessment is forced to urgency "emergency" — the
code's emergency signal, overriding any lower per-symptom urgency — and its
severity is "high" (the maximum of the severity scale the code uses), never
the string "emergency".  The knowledge base of src/app/nlp.py defines no
red-flag keyword lists, so the red-flag half of the claim has no code to
act on. -/
theorem C1_emergency_keyword_override (text : String)
    (h : ∃ d, pyGet MEDICAL_KNOWLEDGE_BASE "emergency" = some d
          ∧ ∃ k ∈ d.keywords, pyIn k (asciiLower text) = true) :
    get_severity_level (extract_symptoms text) = some ("high", "emergency") := by
  obtain ⟨d, hd, k, hk, hin⟩ := h
  have hmem : "emergency" ∈ extract_symptoms text :=
    mem_extract_of_keyword (pyGet_mem_pair hd) hk hin
  exact sev_foldl_emergency _ ⟨"low", "routine", rfl, by decide, by decide⟩ hmem

/-- Witness for C1: the text "heart attack and mild cough" contains the
emergency keyword "heart attack" (next to the low-severity cough keyword),
and the aggregate is `("high", "emergency")`. -/
theorem C1_witness :
    get_severity_level (extract_symptoms "heart attack and mild cough")
      = some ("high", "emergency") :=
  C1_emergency_keyword_override "heart attack and mild cough"
    ⟨(pyGet MEDICAL_KNOWLEDGE_BASE "emergency").getD ⟨[], "", "", ""⟩, rfl,
      "heart attack", by decide, rfl⟩

/-! ## Claim C3 -/

/-- C3: the language detector always returns one of the five supported
codes, and the first script rule that matches in the fixed priority order
Devanagari→hi, Telugu→te, Tamil→ta, Bengali→bn wins; text with no character
in any of the four ranges yields "en". -/
theorem C3_detect_language_spec (text : String) :
    detect_language text ∈ (["en", "hi", "te", "ta", "bn"] : List String)
      ∧ (hasDevanagari text = true → detect_language text = "hi")
      ∧ (hasDevanagari text = false → hasTelugu text = true → detect_language text = "te")
      ∧ (hasDevanagari text = false → hasTelugu text = false → hasTamil text = true →
          detect_language text = "ta")
      ∧ (hasDevanagari text = false → hasTelugu text = false → hasTamil text = false →
          hasBengali text = true → detect_language text = "bn")
      ∧ (hasDevanagari text = false → hasTelugu text = false → hasTamil text = false →
          hasBengali text = false → detect_language text = "en") := by
  cases h1 : hasDevanagari text <;> cases h2 : hasTelugu text <;>
    cases h3 : hasTamil text <;> cases h4 : hasBengali text <;>
    simp [detect_language, h1, h2, h3, h4]

/-- Witness for C3: a Devanagari input is classified "hi" and an ASCII input
(no script-range character at all) is classified "en". -/
theorem C3_witness :
    detect_language "नमस्ते" = "hi" ∧ detect_language "hello" = "en" :=
  ⟨(C3_detect_language_spec "नमस्ते").2.1 rfl,
    (C3_detect_language_spec "hello").2.2.2.2.2 rfl rfl rfl rfl⟩

/-! ## Claim C4 -/

/-- C4 (counterexample): "burning" is a keyword of the fever condition, yet
the text consisting of exactly that keyword is reported as both fever and
skin (the skin keyword "burn" occurs inside "burning"), so the detected set
is not the singleton the claim requires. -/
theorem C4_counterexample :
    (pyGet MEDICAL_KNOWLEDGE_BASE "fever").map
        (fun d => decide ("burning" ∈ d.keywords)) = some true
      ∧ extract_symptoms "burning" = ["fever", "skin"]
      ∧ (["fever", "skin"] : List String) ≠ ["fever"] :=
  ⟨by decide, rfl, by decide⟩

/-- C4 (amended): a text consisting of exactly one keyword of a condition
always yields that condition among the detected symptoms — but not
necessarily alone, since another condition whose keyword occurs as a
substring of the text is reported too. -/
theorem C4_keyword_detects_condition (cd : String × ConditionData) (k : String)
    (hcd : cd ∈ MEDICAL_KNOWLEDGE_BASE) (hk : k ∈ cd.2.keywords) :
    cd.1 ∈ extract_symptoms k := by
  obtain ⟨c, d⟩ := cd
  have hall := List.all_eq_true.mp kb_keywords_lower_fixed ⟨c, d⟩ hcd
  have hfix : asciiLower k = k := by
    have hbeq := List.all_eq_true.mp hall k hk
    simpa using hbeq
  have hin : pyIn k (asciiLower k) = true := by
    rw [hfix]
    exact pyIn_self k
  exact mem_extract_of_keyword hcd hk hin

/-- Witness for C4: the one-keyword text "fever" reports the fever
condition. -/
theorem C4_witness : "fever" ∈ extract_symptoms "fever" :=
  C4_keyword_detects_condition
    ("fever", (pyGet MEDICAL_KNOWLEDGE_BASE "fever").getD ⟨[], "", "", ""⟩)
    "fever" (by decide) (by decide)

/-! ## Claim C2 -/

/-- C2 (counterexample): for the input "chest pain and difficulty breathing"
with language "en" the returned severity is "high", not "emergency" as the
claim states (and the result record has no is_emergency field at all — the
emergency signal is the urgency field). -/
theorem C2_counterexample :
    (get_health_guidance "chest pain and difficulty breathing" "en").map
        (fun r => r.severity) = some "high"
      ∧ ("high" : String) ≠ "emergency" :=
  ⟨rfl, by decide⟩

/-- C2 (amended): whenever symptoms were matched and the assessment carries
the code's emergency signal (urgency = "emergency"), the composed guidance is
ONLY the localized emergency message; the concrete input "chest pain and
difficulty breathing" with language "en" yields urgency "emergency",
severity "high", and guidance equal to the localized English emergency
message only. -/
theorem C2_emergency_guidance_only (symptoms : List String) (severity language : String)
    (h : symptoms ≠ []) :
    generate_personalized_advice symptoms severity "emergency" language
        = (langGet language "emergency").getD
            "⚠️ EMERGENCY: Seek immediate medical attention. Call emergency services or go to the nearest hospital immediately."
      ∧ get_health_guidance "chest pain and difficulty breathing" "en"
          = some
              { guidance := "⚠️ EMERGENCY: Seek immediate medical attention. Call 108 or go to the nearest hospital.",
                detected_symptoms := ["emergency"],
                severity := "high",
                urgency := "emergency",
                language := "en",
                confidence := "high",
                disclaimer := "This is general guidance only, not a medical diagnosis." } := by
  constructor
  · have hne : symptoms.isEmpty = false := by
      cases symptoms with
      | nil => exact absurd rfl h
      | cons a t => rfl
    simp [generate_personalized_advice, hne]
  · rfl

/-- Witness for C2: the emergency branch at the concrete symptom list
`["emergency"]` in English. -/
theorem C2_witness :
    generate_personalized_advice ["emergency"] "high" "emergency" "en"
      = (langGet "en" "emergency").getD
          "⚠️ EMERGENCY: Seek immediate medical attention. Call emergency services or go to the nearest hospital immediately." :=
  (C2_emergency_guidance_only ["emergency"] "high" "en" (by decide)).1

/-! ## Claim C6 -/

/-- C6: the guidance entry point on the empty string never raises (the
result is `some _` for every language), detects no symptoms, and returns the
generic could-not-identify message followed by the localized disclaimer,
with confidence "low". -/
theorem C6_empty_input_guidance (language : String) :
    get_health_guidance "" language
      = some
          { guidance := "I couldn\x27t identify specific symptoms. Please describe your health concern in more detail. "
              ++ disclaimerFor language,
            detected_symptoms := [],
            severity := "low",
            urgency := "routine",
            language := language,
            confidence := "low",
            disclaimer := "This is general guidance only, not a medical diagnosis." } := by
  by_cases hl : language = "en"
  · subst hl
    rfl
  · have hbeq : (language == "en") = false := by
      simpa using hl
    have hex : extract_symptoms "" = [] := rfl
    simp [get_health_guidance, hbeq, hex, generate_personalized_advice,
      get_ai_enhanced_response, get_severity_level]

/-! ## Claim C5 -/

theorem pyGetD_cases {α : Type} (m : List (String × α)) (key : String) (dflt : α) :
    (pyGet m key).getD dflt ∈ m.map Prod.snd ∨ (pyGet m key).getD dflt = dflt := by
  cases h : pyGet m key with
  | none => simp
  | some v => simp [pyGet_mem h]

theorem getD_ne_empty {m : List (String × String)} {key dflt : String}
    (hvals : ∀ v ∈ m.map Prod.snd, v ≠ "") (hd : dflt ≠ "") :
    (pyGet m key).getD dflt ≠ "" := by
  rcases pyGetD_cases m key dflt with hmem | heq
  · exact hvals _ hmem
  · rw [heq]
    exact hd

/-- For each of the three tiers, the severity-banded message is non-empty
whatever the language (either a translation exists, or the non-empty English
banded message is used), so `generate_personalized_advice` always appends
it. -/
theorem get_severity_message_ne_empty {severity : String} (h : severity ∈ SevNames)
    (language : String) : get_severity_message severity language ≠ "" := by
  simp only [SevNames, List.mem_cons, List.not_mem_nil, or_false] at h
  rcases h with rfl | rfl | rfl
  · exact getD_ne_empty (by decide) (by decide)
  · exact getD_ne_empty (by decide) (by decide)
  · exact getD_ne_empty (by decide) (by decide)

/-- When every listed symptom is a knowledge-base condition, the per-symptom
advice selection drops nothing. -/
theorem filterMap_symptomAdvice (language : String) (l : List String)
    (h : ∀ s ∈ l, (pyGet MEDICAL_KNOWLEDGE_BASE s).isSome = true) :
    l.filterMap (symptomAdvice language)
      = l.map fun s => (symptomAdvice language s).getD "" := by
  induction l with
  | nil => rfl
  | cons a t ih =>
    have ha : (symptomAdvice language a).isSome = true := by
      unfold symptomAdvice
      cases hga : pyGet MEDICAL_KNOWLEDGE_BASE a with
      | none =>
        have := h a (by simp)
        rw [hga] at this
        simp at this
      | some d => cases langGet language a <;> simp
    obtain ⟨v, hv⟩ := Option.isSome_iff_exists.mp ha
    simp [List.filterMap_cons, hv, ih fun s hs => h s (by simp [hs])]

/-- C5: in the non-emergency branch with at least one matched symptom, the
composed guidance is exactly the space-joined concatenation of each matched
condition's localized advice (English fallback inside `symptomAdvice`), then
the severity-banded message of the overall tier, then the localized
disclaimer. -/
theorem C5_nonemergency_guidance_composition (symptoms : List String)
    (severity urgency language : String)
    (h1 : symptoms ≠ []) (h2 : urgency ≠ "emergency")
    (h3 : ∀ s ∈ symptoms, (pyGet MEDICAL_KNOWLEDGE_BASE s).isSome = true)
    (h4 : severity ∈ SevNames) :
    generate_personalized_advice symptoms severity urgency language
      = String.intercalate " "
          ((symptoms.map fun s => (symptomAdvice language s).getD "")
            ++ [get_severity_message severity language, disclaimerFor language]) := by
  have hne : symptoms.isEmpty = false := by
    cases symptoms with
    | nil => exact absurd rfl h1
    | cons a t => rfl
  have hbeq : (urgency == "emergency") = false := by
    simpa using h2
  have hmbeq : (get_severity_message severity language == "") = false := by
    simpa using get_severity_message_ne_empty h4 language
  simp [generate_personalized_advice, hne, hbeq, hmbeq,
    filterMap_symptomAdvice language symptoms h3]

/-- Witness for C5: the fever symptom at severity "medium", urgency
"monitor", language "en". -/
theorem C5_witness :
    generate_personalized_advice ["fever"] "medium" "monitor" "en"
      = String.intercalate " "
          (((["fever"] : List String).map fun s => (symptomAdvice "en" s).getD "")
            ++ [get_severity_message "medium" "en", disclaimerFor "en"]) :=
  C5_nonemergency_guidance_composition ["fever"] "medium" "monitor" "en"
    (by decide) (by decide) (by decide) (by decide)

/-! ## Claim C9 -/

/-- The all-empty default record used only to state witnesses. -/
def noGuidance : HealthGuidance :=
  { guidance := "", detected_symptoms := [], severity := "", urgency := "",
    language := "", confidence := "", disclaimer := "" }

/-- C9: the guidance entry point is deterministic — two calls with the same
text and language return identical result content (the embedding is a pure
function of the input over the fixed knowledge base; the disabled AI branch
and the absence of any other state are part of the embedding). -/
theorem C9_guidance_deterministic (text language : String) (r1 r2 : HealthGuidance)
    (h1 : get_health_guidance text language = some r1)
    (h2 : get_health_guidance text language = some r2) : r1 = r2 :=
  Option.some.inj (h1.symm.trans h2)

/-- Witness for C9: both hypotheses discharged by evaluation at the input
"I have fever" / "en". -/
theorem C9_witness :
    (get_health_guidance "I have fever" "en").getD noGuidance
      = (get_health_guidance "I have fever" "en").getD noGuidance :=
  C9_guidance_deterministic "I have fever" "en"
    ((get_health_guidance "I have fever" "en").getD noGuidance)
    ((get_health_guidance "I have fever" "en").getD noGuidance)
    rfl rfl

/-! ## Claim C7 -/

theorem mem_insertByKey {α : Type} (le : α → α → Bool) (x z : α) (l : List α) :
    z ∈ insertByKey le x l ↔ z = x ∨ z ∈ l := by
  induction l with
  | nil => simp [insertByKey]
  | cons y t ih =>
    by_cases hxy : le x y = true
    · simp only [insertByKey, hxy, if_pos, List.mem_cons]
    · simp only [insertByKey, hxy, if_neg, Bool.false_eq_true, not_false_iff,
        List.mem_cons, ih]
      tauto

theorem pairwise_insertByKey {α : Type} (le : α → α → Bool)
    (htot : ∀ a b, le a b = true ∨ le b a = true)
    (htrans : ∀ a b c, le a b = true → le b c = true → le a c = true)
    (x : α) {l : List α} (hl : l.Pairwise fun a b => le a b = true) :
    (insertByKey le x l).Pairwise fun a b => le a b = true := by
  induction l with
  | nil => simp [insertByKey]
  | cons y t ih =>
    obtain ⟨hy, ht⟩ := List.pairwise_cons.mp hl
    by_cases hxy : le x y = true
    · rw [insertByKey, if_pos hxy]
      refine List.pairwise_cons.mpr ⟨?_, List.pairwise_cons.mpr ⟨hy, ht⟩⟩
      intro z hz
      rcases List.mem_cons.mp hz with heq | hz2
      · rw [heq]
        exact hxy
      · exact htrans x y z hxy (hy z hz2)
    · rw [insertByKey, if_neg hxy]
      refine List.pairwise_cons.mpr ⟨?_, ih ht⟩
      intro z hz
      rcases (mem_insertByKey le x z t).mp hz with heq | hz2
      · rw [heq]
        exact (htot x y).resolve_left hxy
      · exact hy z hz2

theorem pairwise_sortByKey {α : Type} (le : α → α → Bool)
    (htot : ∀ a b, le a b = true ∨ le b a = true)
    (htrans : ∀ a b c, le a b = true → le b c = true → le a c = true)
    (l : List α) : (sortByKey le l).Pairwise fun a b => le a b = true := by
  induction l with
  | nil => simp [sortByKey]
  | cons a t ih => exact pairwise_insertByKey le htot htrans a ih

theorem mem_sortByKey {α : Type} (le : α → α → Bool) (z : α) (l : List α) :
    z ∈ sortByKey le l ↔ z ∈ l := by
  induction l with
  | nil => simp [sortByKey]
  | cons a t ih =>
    show z ∈ insertByKey le a (sortByKey le t) ↔ _
    rw [mem_insertByKey, ih]
    simp

theorem resourceOrder_total (a b : LocalResource) :
    resourceOrder a b = true ∨ resourceOrder b a = true := by
  unfold resourceOrder
  cases ha : a.emergency_available <;> cases hb : b.emergency_available <;>
    simp [ha, hb] <;> omega

theorem resourceOrder_trans (a b c : LocalResource) :
    resourceOrder a b = true → resourceOrder b c = true → resourceOrder a c = true := by
  unfold resourceOrder
  cases ha : a.emergency_available <;> cases hb : b.emergency_available <;>
    cases hc : c.emergency_available <;> simp [ha, hb, hc] <;> omega

/-- C7: local-resource ranking returns a list ordered by the key
`emergency_available DESC, distance_km ASC` and of length at most 5, and the
emergency-contact query selects only rows with `emergency_available = true`
(and a matching region). -/
theorem C7_resource_ranking (table : List LocalResource) (region : String) :
    (get_local_resources table).Pairwise (fun a b => resourceOrder a b = true)
      ∧ (get_local_resources table).length ≤ 5
      ∧ ∀ r ∈ emergencyContactRows region table,
          r.emergency_available = true ∧ (r.region == region || r.region == "all") = true := by
  refine ⟨?_, ?_, ?_⟩
  · exact List.Pairwise.sublist (List.take_sublist 5 _)
      (pairwise_sortByKey resourceOrder resourceOrder_total resourceOrder_trans table)
  · exact List.length_take_le 5 _
  · intro r hr
    have hr2 : r ∈ table.filter fun q =>
        q.emergency_available && (q.region == region || q.region == "all") :=
      (mem_sortByKey typeOrder r _).mp hr
    have hcond := (List.mem_filter.mp hr2).2
    rw [Bool.and_eq_true] at hcond
    exact hcond

/-- The all-empty resource row used only to state witnesses. -/
def noResource : LocalResource :=
  { resource_type := "", name := "", location := "", contact := "", services := "",
    emergency_available := false, distance_km := 0, availability := "", region := "" }

/-- Witness for C7: on the seeded table, the nationwide emergency-services
row is returned for region "rural" and indeed has `emergency_available`. -/
theorem C7_witness :
    emergencyServicesRow.emergency_available = true
      ∧ (emergencyServicesRow.region == "rural"
          || emergencyServicesRow.region == "all") = true := by
  have hmem : emergencyServicesRow ∈ emergencyContactRows "rural" seedLocalResources := by
    unfold emergencyContactRows
    rw [mem_sortByKey]
    exact List.mem_filter.mpr ⟨List.Mem.head _, rfl⟩
  exact (C7_resource_ranking seedLocalResources "rural").2.2 emergencyServicesRow hmem

/-! ## Claim C8 -/

/-- C8: emergency-protocol retrieval is total and, when the requested
emergency type has no stored protocol record, returns exactly the generic
fallback protocol (call emergency services, stay with the person, follow
dispatcher instructions); no call ever yields an empty step list. -/
theorem C8_protocol_fallback (emergency_type language : String) :
    (pyGet RESPONSE_PROTOCOLS emergency_type = none →
        get_immediate_response_protocol emergency_type language = genericProtocol)
      ∧ (get_immediate_response_protocol emergency_type language).steps ≠ [] := by
  constructor
  · intro h
    unfold get_immediate_response_protocol
    rw [h]
    rfl
  · unfold get_immediate_response_protocol
    cases h1 : pyGet RESPONSE_PROTOCOLS emergency_type with
    | none => simp [pyGet, genericProtocol]
    | some m =>
      cases h2 : pyGet m language with
      | none => simp [h2, genericProtocol]
      | some p =>
        have hall : ∀ mm ∈ RESPONSE_PROTOCOLS.map Prod.snd, ∀ pp ∈ mm.map Prod.snd,
            pp.steps ≠ [] := by decide
        simp only [h2, Option.getD_some]
        exact hall m (pyGet_mem h1) p (pyGet_mem h2)

/-- Witness for C8: the unknown key "snakebite" resolves to the generic
fallback protocol. -/
theorem C8_witness :
    get_immediate_response_protocol "snakebite" "en" = genericProtocol :=
  (C8_protocol_fallback "snakebite" "en").1 rfl
